import Mathlib

/-!
# Word City — verification of the terrain generator and economy core

Shallow embedding of the Word City sources (the React/TS single-file app
variants).  Machine numbers are modelled exactly: the 32-bit LCG state is a
`Nat` reduced `% 2^32`, and every `rand() < p` comparison is the exact
rational comparison `s * den < num * 2^32` (for the constants used — 0.45,
0.08, 0.8, 0.9 — the nearest IEEE-754 double of the constant and the exact
rational give the same verdict on every representable `s / 2^32`, because the
cut point `p * 2^32` is never within 2e-7 of an integer while the double error
is below 2e-16).  `Math.floor(rand()*k)` is the exact `s * k / 2^32` in `Nat`
division, JS bitwise ops on 32-bit values are arithmetic `% 2^32`, and
resource counters (JS numbers holding small integers) are `Int`.
-/

namespace WordCity

/-- 2^32, the modulus of all 32-bit arithmetic in the source. -/
def M32 : Nat := 4294967296

/-- One step of the LCG inside `makeRNG`:
`s = (s * 1664525 + 1013904223) >>> 0`.  The JS closure returns
`s / 4294967296` after stepping; we carry the post-step state and compare
its fraction exactly via `randLt` / `randFloorMul`. -/
def rngNext (s : Nat) : Nat := (s * 1664525 + 1013904223) % M32

/-- `rand() < num/den`, where the rand value is `s / 2^32` for the post-step
state `s`: exactly `s * den < num * 2^32`. -/
def randLt (s num den : Nat) : Bool := decide (s * den < num * M32)

/-- `Math.floor(rand() * k)` for a natural `k`: exactly `s * k / 2^32`. -/
def randFloorMul (s k : Nat) : Nat := s * k / M32

/-- `hashSeed`: FNV-1a over the seed string's UTF-16 code units
(`h = 2166136261; h ^= c; h = Math.imul(h, 16777619)`, result `>>> 0`).
`Char.toNat` agrees with `charCodeAt` for all BMP characters. -/
def hashSeed (seed : String) : Nat :=
  seed.data.foldl (fun h c => ((h ^^^ c.toNat) * 16777619) % M32) 2166136261

inductive Terrain
  | grass | water | road | bridge
deriving DecidableEq, Repr

inductive Biome
  | meadow | forest | hill | marsh | thicket
deriving DecidableEq, Repr

/-- The `structure` payload stored on a tile:
`{ id, level, icon, shape? }`. -/
structure Structure where
  id : String
  level : Nat
  icon : String
  shape : Option (List (Int × Int))
deriving DecidableEq, Repr

/-- One grid cell: `{ terrain, biome, structure? }`.  The optional structure
field is called `struct` (`structure` is a Lean keyword). -/
structure Tile where
  terrain : Terrain
  biome : Biome
  struct : Option Structure := none
deriving DecidableEq, Repr

/-- Replace the element at index `i` by `f` of itself (out-of-range: no-op).
Models an in-place `tiles[i] = { ...tiles[i], ... }` update. -/
def modifyTile (tiles : List Tile) (i : Nat) (f : Tile → Tile) : List Tile :=
  match tiles.get? i with
  | some t => tiles.set i (f t)
  | none => tiles

/-- `if (xx >= 0 && yy >= 0 && xx < size && yy < size) tiles[yy*size+xx].terrain = "water"`. -/
def setWaterXY (size : Nat) (tiles : List Tile) (x y : Int) : List Tile :=
  if 0 ≤ x ∧ x < (size : Int) ∧ 0 ≤ y ∧ y < (size : Int) then
    modifyTile tiles (y.toNat * size + x.toNat) (fun t => { t with terrain := Terrain.water })
  else tiles

/-- The river band at one column:
`for (let dy = -width; dy <= width; dy++) { const yy = y + dy; if (yy>=0 && yy<size) ... water }`.
`k` ranges over `0 … 2w`, so `yy = y - w + k` covers `y-w … y+w`. -/
def applyBand (size : Nat) (tiles : List Tile) (x : Nat) (y : Int) (w : Nat) : List Tile :=
  (List.range (2 * w + 1)).foldl
    (fun (ts : List Tile) (k : Nat) => setWaterXY size ts (x : Int) (y - (w : Int) + k)) tiles

/-- Lake stamp: the double loop `for dx in -r..r, for dy in -r..r` marking the
full square as water (bounds-guarded). -/
def applyLake (size : Nat) (tiles : List Tile) (x : Nat) (y : Int) (r : Nat) : List Tile :=
  (List.range (2 * r + 1)).foldl (fun (ts : List Tile) (i : Nat) =>
    (List.range (2 * r + 1)).foldl (fun (ts2 : List Tile) (j : Nat) =>
      setWaterXY size ts2 ((x : Int) - (r : Int) + i) (y - (r : Int) + j)) ts) tiles

/-- The default generated tile (`terrain: grass, biome: meadow`). -/
def grassTile : Tile := { terrain := Terrain.grass, biome := Biome.meadow, struct := none }

/-- A bare road tile on meadow (used by concrete witnesses). -/
def roadTile : Tile := { terrain := Terrain.road, biome := Biome.meadow, struct := none }

/-- State threaded through the river carve: the tiles, the current river row
`y`, and the LCG state. -/
structure CarveSt where
  tiles : List Tile
  y : Int
  rng : Nat
deriving Repr

/-- One column of the river carve in `generateTerrain`:
width draw (`1 + (rnd() < 0.45 ? 0 : 1)`), the vertical band, the 8%-chance
lake stamp of radius `1 + Math.floor(rnd()*2)`, then the random walk step
`y += [-1,0,1][Math.floor(rnd()*3)]` clamped to `[1, size-2]`. -/
def carveColumn (size : Nat) (st : CarveSt) (x : Nat) : CarveSt :=
  let s1 := rngNext st.rng
  let w : Nat := if randLt s1 45 100 then 1 else 2
  let t1 := applyBand size st.tiles x st.y w
  let s2 := rngNext s1
  let lake := if randLt s2 8 100 then
      let sr := rngNext s2
      (applyLake size t1 x st.y (1 + randFloorMul sr 2), sr)
    else (t1, s2)
  let s4 := rngNext lake.2
  let d := randFloorMul s4 3
  let ynew : Int := st.y + (d : Int) - 1
  { tiles := lake.1, y := max 1 (min ((size : Int) - 2) ynew), rng := s4 }

/-- Initial carve state: all-grass/meadow tiles, first LCG step, and the
starting row `Math.floor(size/3 + rnd()*size/3)` — exactly
`⌊size*(2^32 + s0) / (3*2^32)⌋`. -/
def carveInit (size : Nat) (seed0 : Nat) : CarveSt :=
  let s0 := rngNext seed0
  { tiles := List.replicate (size * size) { terrain := Terrain.grass, biome := Biome.meadow }
    y := ((size * (M32 + s0)) / (3 * M32) : Nat)
    rng := s0 }

/-- The carve state just before column `x` of the left-to-right river walk. -/
def carveStateAt (size : Nat) (seed0 : Nat) (x : Nat) : CarveSt :=
  (List.range x).foldl (carveColumn size) (carveInit size seed0)

/-- Biome-patch state: tiles plus LCG state. -/
structure PatchSt where
  tiles : List Tile
  rng : Nat
deriving Repr

/-- One cell visit of a biome patch attempt: bounds guard, water skip,
`Math.hypot(dx,dy) <= radius` (exactly `dx²+dy² ≤ radius²`), and only then a
probability draw `rnd() < prob` (the rand call is short-circuited away
otherwise, which matters for the RNG stream). -/
def patchCell (size radius : Nat) (ty : Biome) (probN probD : Nat) (cx cy : Nat)
    (st : PatchSt) (i j : Nat) : PatchSt :=
  let dx : Int := (i : Int) - (radius : Int)
  let dy : Int := (j : Int) - (radius : Int)
  let xx := (cx : Int) + dx
  let yy := (cy : Int) + dy
  if xx < 0 ∨ yy < 0 ∨ (size : Int) ≤ xx ∨ (size : Int) ≤ yy then st
  else
    match st.tiles.get? (yy.toNat * size + xx.toNat) with
    | none => st
    | some t =>
      if t.terrain = Terrain.water then st
      else if dx * dx + dy * dy ≤ (radius : Int) * (radius : Int) then
        let s' := rngNext st.rng
        if randLt s' probN probD then
          { tiles := st.tiles.set (yy.toNat * size + xx.toNat) { t with biome := ty }, rng := s' }
        else { st with rng := s' }
      else st

/-- One attempt of the `patch` closure: draw a centre `(cx, cy)` with two rand
calls, then visit the `(2r+1)²` square, `dx` outer loop, `dy` inner loop. -/
def patchAttempt (size radius : Nat) (ty : Biome) (probN probD : Nat) (st : PatchSt) : PatchSt :=
  let sA := rngNext st.rng
  let cx := randFloorMul sA size
  let sB := rngNext sA
  let cy := randFloorMul sB size
  (List.range (2 * radius + 1)).foldl (fun a i =>
    (List.range (2 * radius + 1)).foldl (fun a2 j =>
      patchCell size radius ty probN probD cx cy a2 i j) a)
    { tiles := st.tiles, rng := sB }

/-- `patch(type, attempts, radius, prob)` of `generateTerrain`; `prob` is the
exact rational `probN / probD`. -/
def patch (size : Nat) (ty : Biome) (attempts radius probN probD : Nat) (st : PatchSt) : PatchSt :=
  (List.range attempts).foldl (fun a _ => patchAttempt size radius ty probN probD a) st

/-- Does tile `i` have a 4-neighbour whose terrain is water? -/
def nearWater (size : Nat) (tiles : List Tile) (i : Nat) : Bool :=
  [((1 : Int), (0 : Int)), (-1, 0), (0, 1), (0, -1)].any (fun p =>
    let xx := ((i % size : Nat) : Int) + p.1
    let yy := ((i / size : Nat) : Int) + p.2
    if 0 ≤ xx ∧ xx < (size : Int) ∧ 0 ≤ yy ∧ yy < (size : Int) then
      match tiles.get? (yy.toNat * size + xx.toNat) with
      | some t => t.terrain = Terrain.water
      | none => false
    else false)

/-- The marsh pass: every non-water tile still at the default `meadow` biome
with a water 4-neighbour becomes marsh.  The JS loop mutates biomes in place
while scanning, but `nearWater` only reads terrain (never written here), so
the serial fold is exactly the source behaviour. -/
def marshPass (size : Nat) (tiles : List Tile) : List Tile :=
  (List.range (size * size)).foldl (fun ts i =>
    match ts.get? i with
    | none => ts
    | some t =>
      if t.terrain = Terrain.water then ts
      else if nearWater size ts i ∧ t.biome = Biome.meadow then
        ts.set i { t with biome := Biome.marsh }
      else ts) tiles

/-- `generateTerrain` run from a numeric seed state: river carve over all
columns, then `patch("forest",12,2)`, `patch("hill",10,2)`,
`patch("thicket",5,2,0.9)`, then the marsh pass (the part_000/part_001
ordering). -/
def generateTerrainFromState (size : Nat) (seed0 : Nat) : List Tile :=
  let c := carveStateAt size seed0 size
  let p1 := patch size Biome.forest 12 2 4 5 { tiles := c.tiles, rng := c.rng }
  let p2 := patch size Biome.hill 10 2 4 5 p1
  let p3 := patch size Biome.thicket 5 2 9 10 p2
  marshPass size p3.tiles

/-- `generateTerrain(size, seedStr)`: the full generator, seeded by
`makeRNG(hashSeed(seedStr))`. -/
def generateTerrain (size : Nat) (seedStr : String) : List Tile :=
  generateTerrainFromState size (hashSeed seedStr)

/-! ## Resources and the building catalog -/

/-- The five resource counters.  JS numbers holding integers; `Int` models
them exactly (the code sometimes drives intermediates negative and checks). -/
structure Resources where
  coin : Int
  lumber : Int
  stone : Int
  knowledge : Int
  magic : Int
deriving DecidableEq, Repr

def mkRes (c l s k m : Int) : Resources := ⟨c, l, s, k, m⟩

def Resources.zero : Resources := mkRes 0 0 0 0 0

/-- `addResources`: componentwise sum; a `Partial<Resources>` argument with a
missing field reads as 0, which the total `Resources` record models by storing
the 0 explicitly. -/
def addRes (a b : Resources) : Resources :=
  ⟨a.coin + b.coin, a.lumber + b.lumber, a.stone + b.stone,
   a.knowledge + b.knowledge, a.magic + b.magic⟩

/-- `pay`: componentwise difference. -/
def payRes (a b : Resources) : Resources :=
  ⟨a.coin - b.coin, a.lumber - b.lumber, a.stone - b.stone,
   a.knowledge - b.knowledge, a.magic - b.magic⟩

/-- `canAfford(res, cost)`. -/
def canAfford (r c : Resources) : Bool :=
  decide (c.coin ≤ r.coin ∧ c.lumber ≤ r.lumber ∧ c.stone ≤ r.stone ∧
          c.knowledge ≤ r.knowledge ∧ c.magic ≤ r.magic)

/-- A catalog entry (the part_002 `Building` type).  Optional numeric fields
(`happiness`, `housing`, `growth`) are stored with their `||0` default, which
is how every read site uses them. -/
structure Building where
  id : String
  icon : String
  tier : Nat
  w : Nat
  h : Nat
  shape : Option (List (Int × Int)) := none
  cost : Resources := Resources.zero
  happiness : Int := 0
  housing : Nat := 0
  growth : Nat := 0
  upkeep : Resources := Resources.zero
deriving DecidableEq, Repr

/-- The part_002 (v7) CATALOG. -/
def CATALOG : List Building := [
  { id := "cottage", icon := "cottage", tier := 1, w := 1, h := 1,
    cost := mkRes 20 15 0 0 0, happiness := 1, housing := 3 },
  { id := "herbgarden", icon := "garden", tier := 1, w := 2, h := 1,
    cost := mkRes 10 10 0 0 0, happiness := 2 },
  { id := "workshop", icon := "workshop", tier := 1, w := 2, h := 2,
    cost := mkRes 30 10 10 0 0, upkeep := mkRes 1 0 0 0 0, housing := 1 },
  { id := "sawmill", icon := "sawmill", tier := 1, w := 2, h := 2,
    cost := mkRes 35 20 5 0 0, upkeep := mkRes 1 0 0 0 0 },
  { id := "quarry", icon := "quarry", tier := 1, w := 2, h := 2,
    cost := mkRes 35 5 20 0 0, upkeep := mkRes 1 0 0 0 0, happiness := -2 },
  { id := "market", icon := "market", tier := 2, w := 3, h := 2,
    cost := mkRes 80 0 20 0 0, happiness := 2, growth := 1 },
  { id := "library", icon := "library", tier := 2, w := 2, h := 2,
    cost := mkRes 60 25 10 10 0, happiness := 1 },
  { id := "pier", icon := "pier", tier := 2, w := 2, h := 1,
    cost := mkRes 55 25 5 0 0 },
  { id := "university", icon := "university", tier := 3, w := 3, h := 3,
    cost := mkRes 140 40 20 40 0, upkeep := mkRes 1 0 0 0 0, happiness := 2, housing := 5 },
  { id := "wizardarium", icon := "wizardarium", tier := 3, w := 2, h := 3,
    cost := mkRes 120 30 30 25 10, happiness := 2 },
  { id := "skyport", icon := "skyport", tier := 3, w := 3, h := 2,
    shape := some [(0, 0), (1, 0), (2, 0), (0, 1), (2, 1)],
    cost := mkRes 160 35 40 10 15 }]

/-- `CATALOG.find(c => c.id === id)`. -/
def findCatalog (i : String) : Option Building := CATALOG.find? (fun b => b.id == i)

/-- The cottage catalog entry (1×1, housing 3), spelled out for witnesses. -/
def cottageB : Building :=
  { id := "cottage", icon := "cottage", tier := 1, w := 1, h := 1,
    cost := mkRes 20 15 0 0 0, happiness := 1, housing := 3 }

/-- The workshop catalog entry (2×2, housing 1), spelled out for witnesses. -/
def workshopB : Building :=
  { id := "workshop", icon := "workshop", tier := 1, w := 2, h := 2,
    cost := mkRes 30 10 10 0 0, upkeep := mkRes 1 0 0 0 0, housing := 1 }

/-! ## Words, rack, yields -/

/-- Letters kept by `raw.toUpperCase().replace(/[^A-Z]/g, "")`.  `Char.toUpper`
matches `toUpperCase` on ASCII (non-ASCII input only loses characters the
regex would strip anyway for the alphabets this game uses). -/
def isUpperAlpha (c : Char) : Bool := decide ('A' ≤ c ∧ c ≤ 'Z')

def normalizeWord (raw : String) : List Char :=
  (raw.data.map Char.toUpper).filter isUpperAlpha

def isVowel (c : Char) : Bool := c = 'A' ∨ c = 'E' ∨ c = 'I' ∨ c = 'O' ∨ c = 'U'

/-- The yield engine's rare-letter class `/[JQXZKV]/`. -/
def isRareYield (c : Char) : Bool :=
  c = 'J' ∨ c = 'Q' ∨ c = 'X' ∨ c = 'Z' ∨ c = 'K' ∨ c = 'V'

/-- The wonder check's rare-letter class `/[QXZ]/` (note: narrower than the
yield engine's). -/
def isRareWonder (c : Char) : Bool := c = 'Q' ∨ c = 'X' ∨ c = 'Z'

def countIn (p : Char → Bool) (w : List Char) : Nat := (w.filter p).length

/-- `/[AEIOU]{2}/.test(word)`: some adjacent pair of vowels. -/
def hasDoubleVowel : List Char → Bool
  | [] => false
  | [_] => false
  | a :: b :: rest => (isVowel a && isVowel b) || hasDoubleVowel (b :: rest)

/-- `canFormFromRack`: the word's letter multiset is contained in the rack's
(the JS version compares per-letter counts over the word's distinct letters,
which is the same check). -/
def canFormFromRack (word rack : List Char) : Bool :=
  word.all (fun c => decide (word.count c ≤ rack.count c))

/-- Letter consumption: `for ch of rack: if need[ch] > 0 then need[ch]-- else keep ch`.
The remaining need is carried as a list with first-occurrence erasure, which
has exactly the multiset-count semantics of the JS counter map. -/
def consumeRack (word rack : List Char) : List Char :=
  (rack.foldl (fun (acc : List Char × List Char) ch =>
    if acc.2.contains ch then (acc.1, acc.2.erase ch) else (acc.1 ++ [ch], acc.2)) ([], word)).1

/-- Pre-multiplier yields as natural numbers (all the base formulas are
nonnegative integer arithmetic). -/
structure Yield where
  coin : Nat
  lumber : Nat
  stone : Nat
  knowledge : Nat
  magic : Nat
deriving DecidableEq, Repr

def yieldToRes (y : Yield) : Resources := mkRes y.coin y.lumber y.stone y.knowledge y.magic

/-- The happiness multiplier applied to one component:
`Math.floor(v * (happiness>=80 ? 1.2 : happiness<=20 ? 0.8 : 1.0))` —
exactly `v*6/5`, `v*4/5`, or `v` in `Nat` division (for the small yields this
game produces, the IEEE doubles 1.2 and 0.8 floor identically). -/
def applyHappyMult (h : Int) (v : Nat) : Nat :=
  if 80 ≤ h then v * 6 / 5 else if h ≤ 20 then v * 4 / 5 else v

def scaleYield (h : Int) (y : Yield) : Yield :=
  ⟨applyHappyMult h y.coin, applyHappyMult h y.lumber, applyHappyMult h y.stone,
   applyHappyMult h y.knowledge, applyHappyMult h y.magic⟩

/-- The part_000 `submitWord` gain record before the multiplier:
coin `max(1, ⌊len/2⌋)`, lumber `⌊(len−vowels)/3⌋`, stone `⌊(len−vowels)/4⌋`,
knowledge `⌊vowels/2⌋`, magic = rare count. -/
def baseGainBasic (word : List Char) : Yield :=
  let vowels := countIn isVowel word
  let rares := countIn isRareYield word
  ⟨max 1 (word.length / 2), (word.length - vowels) / 3, (word.length - vowels) / 4,
   vowels / 2, rares⟩

/-- `grid.some(t => t.structure && ids.includes(t.structure.id))`. -/
def gridHasAny (grid : List Tile) (ids : List String) : Bool :=
  grid.any (fun t => match t.struct with
    | some s => ids.contains s.id
    | none => false)

/-- part_002 `resourceYieldBase`: tier-dependent minimum length zeroes the
yield; otherwise base formulas plus flat building bonuses, then the happiness
multiplier on every component. -/
def resourceYieldBase (grid : List Tile) (tier : Nat) (happiness : Int)
    (word : List Char) : Yield :=
  let len := word.length
  let rares := countIn isRareYield word
  let vowels := countIn isVowel word
  let consonants := len - vowels
  let minLen := if 4 ≤ tier then 5 else if 2 ≤ tier then 4 else 3
  if len < minLen then ⟨0, 0, 0, 0, 0⟩
  else
    scaleYield happiness
      ⟨max 1 (len / 2) + (if gridHasAny grid ["market"] then 2 else 0),
       consonants / 3 + (if gridHasAny grid ["sawmill", "workshop"] then 1 else 0),
       (len - vowels) / 4 + (if gridHasAny grid ["quarry"] then 1 else 0),
       vowels / 2 + (if gridHasAny grid ["library"] && decide (6 ≤ len) then 1 else 0),
       rares + (if gridHasAny grid ["wizardarium"] then 1 else 0)⟩

/-! ## Word submission -/

/-- The wonder milestone flags. -/
structure WonderProgress where
  len8 : Bool
  rare : Bool
  vv : Bool
deriving DecidableEq, Repr

/-- The slice of v7 session state that `submitWord` reads and writes. -/
structure SubmitV7State where
  rack : List Char
  res : Resources
  letterPool : Nat
  wonder : WonderProgress
deriving DecidableEq, Repr

/-- The refill loop `while (toFill-- > 0 && toFill < take+1) push(...)`,
transcribed literally: at each iteration the counter is post-decremented, the
push happens only if the decremented counter is `< take+1`, and the first
failing test ends the loop.  Returns the number of letters pushed. -/
def whileRefill : Nat → Nat → Nat
  | 0, _ => 0
  | o + 1, take => if o < take + 1 then whileRefill o take + 1 else 0

structure SubmitV7Out where
  state : SubmitV7State
  accepted : Bool
deriving DecidableEq, Repr

/-- part_002 `submitWord`.  `dict` is the `Set.has` capability; `letters` is
the `Math.random`-driven `weightedRandomLetter` stream (the k-th fresh letter
drawn during this call). -/
def submitWordV7 (grid : List Tile) (tier : Nat) (happiness : Int)
    (dict : String → Bool) (letters : Nat → Char)
    (st : SubmitV7State) (raw : String) : SubmitV7Out :=
  let word := normalizeWord raw
  if word.length < 3 then ⟨st, false⟩
  else if canFormFromRack word st.rack = false then ⟨st, false⟩
  else if dict (String.mk word) = false then ⟨st, false⟩
  else
    let wonder' : WonderProgress :=
      { len8 := st.wonder.len8 || decide (8 ≤ word.length)
        rare := st.wonder.rare || word.any isRareWonder
        vv := st.wonder.vv || hasDoubleVowel word }
    let y := resourceYieldBase grid tier happiness word
    let kept := consumeRack word st.rack
    let n := st.rack.length - kept.length
    let take := min n st.letterPool
    ⟨{ rack := kept ++ (List.range (whileRefill n take)).map letters
       res := addRes st.res (yieldToRes y)
       letterPool := st.letterPool - take
       wonder := wonder' }, true⟩

structure SubmitV0Out where
  rack : List Char
  res : Resources
  accepted : Bool
deriving DecidableEq, Repr

/-- part_000 `submitWord`: tier-dependent length gate
(`tier >= 2 ? 4 : 3`), the same formability and dictionary gates, gain with
happiness multiplier, consume, and refill `while (keep.length < rack.length)`
— always back to the full rack size. -/
def submitWordV0 (tier : Nat) (happiness : Int) (dict : String → Bool)
    (letters : Nat → Char) (rack : List Char) (res : Resources)
    (raw : String) : SubmitV0Out :=
  let word := normalizeWord raw
  let minLen := if 2 ≤ tier then 4 else 3
  if word.length < minLen then ⟨rack, res, false⟩
  else if canFormFromRack word rack = false then ⟨rack, res, false⟩
  else if dict (String.mk word) = false then ⟨rack, res, false⟩
  else
    let gain := scaleYield happiness (baseGainBasic word)
    let kept := consumeRack word rack
    ⟨kept ++ (List.range (rack.length - kept.length)).map letters,
     addRes res (yieldToRes gain), true⟩

/-! ## Building placement (part_002 onClick path) -/

/-- The dense rectangle footprint
`Array.from({length: h*w}, (_,i) => [i%w, ⌊i/w⌋])`. -/
def rectPts (w h : Nat) : List (Int × Int) :=
  (List.range (h * w)).map (fun i => (((i % w : Nat) : Int), ((i / w : Nat) : Int)))

/-- `b.shape ? b.shape : rectangle`. -/
def footprintPts (b : Building) : List (Int × Int) := b.shape.getD (rectPts b.w b.h)

/-- `getFootprint`: map each offset from the anchor to a grid index, `none` as
soon as any cell is out of bounds. -/
def getFootprint (size : Nat) (b : Building) (startIdx : Nat) : Option (List Nat) :=
  let x := startIdx % size
  let y := startIdx / size
  (footprintPts b).foldl (fun acc pt =>
    match acc with
    | none => none
    | some ids =>
      let xx := (x : Int) + pt.1
      let yy := (y : Int) + pt.2
      if xx < 0 ∨ yy < 0 ∨ (size : Int) ≤ xx ∨ (size : Int) ≤ yy then none
      else some (ids ++ [yy.toNat * size + xx.toNat])) (some [])

/-- Exact rational ceiling `⌈a / b⌉` for `b > 0` (Lean `Int` division is
euclidean, i.e. floor for a positive divisor). -/
def ceilDiv (a b : Int) : Int := -(-a / b)

/-- `scaledCost(b, level)`: `scale = 1 + (level-1)*0.6` and
`Math.ceil(c * scale)` per component — exactly `⌈c * (5 + 3(level-1)) / 5⌉`.
At level 1 (the only level the placement path uses) this is exact double
arithmetic as well. -/
def scaledCostC (c : Int) (level : Nat) : Int := ceilDiv (c * (5 + 3 * ((level : Int) - 1))) 5

def scaledCost (b : Building) (level : Nat) : Resources :=
  ⟨scaledCostC b.cost.coin level, scaledCostC b.cost.lumber level,
   scaledCostC b.cost.stone level, scaledCostC b.cost.knowledge level,
   scaledCostC b.cost.magic level⟩

/-- The per-cell gate of the placement `for` loop:
`(tile.terrain==='road' || tile.terrain==='bridge') && !tile.structure`
for every footprint index. -/
def footprintOk (grid : List Tile) (fp : List Nat) : Bool :=
  fp.all (fun ii => match grid.get? ii with
    | some t => decide ((t.terrain = Terrain.road ∨ t.terrain = Terrain.bridge) ∧ t.struct = none)
    | none => false)

structure PlaceOut where
  grid : List Tile
  res : Resources
  success : Bool
deriving DecidableEq, Repr

/-- The structure payload every footprint cell receives on success. -/
def placedStruct (b : Building) : Structure := ⟨b.id, 1, b.icon, b.shape⟩

/-- A representative tile carrying a freshly placed structure of `b` (the
city-stats accumulators read only the `struct` field, so any terrain/biome
serve). -/
def placedTile (b : Building) : Tile :=
  { terrain := Terrain.grass, biome := Biome.meadow, struct := some (placedStruct b) }

/-- The building-placement branch of the grid `onClick` handler: footprint,
per-cell check, `scaledCost(b, 1)` affordability, then every footprint cell
gets the same structure payload and the cost is paid once.  All three early
returns leave grid and resources untouched. -/
def placeBuilding (size : Nat) (b : Building) (idx : Nat) (grid : List Tile)
    (res : Resources) : PlaceOut :=
  match getFootprint size b idx with
  | none => ⟨grid, res, false⟩
  | some fp =>
    if footprintOk grid fp = false then ⟨grid, res, false⟩
    else if canAfford res (scaledCost b 1) = false then ⟨grid, res, false⟩
    else
      ⟨fp.foldl (fun g ii => modifyTile g ii (fun t => { t with struct := some (placedStruct b) })) grid,
       payRes res (scaledCost b 1), true⟩

/-! ## Road / bridge placement and removal (part_002) -/

def ROAD_BASE_COST : Resources := mkRes 1 1 1 0 0
def BRIDGE_COST : Resources := mkRes 2 1 3 0 0

/-- `BIOME_ROAD_MOD`. -/
def biomeRoadMod : Biome → Resources
  | Biome.meadow => Resources.zero
  | Biome.forest => mkRes 0 1 0 0 0
  | Biome.hill => mkRes 0 0 1 0 0
  | Biome.marsh => mkRes 0 0 2 0 0
  | Biome.thicket => mkRes 0 0 99 0 0

structure RoadOut where
  grid : List Tile
  res : Resources
  placed : Bool
deriving DecidableEq, Repr

/-- part_002 `placeRoadOrBridge`.  In remove mode: a road/bridge tile reverts
to grass with a refund (`{coin:1,stone:1}` for bridge, `{coin:1,lumber:1}` for
road); independently, a tile holding a structure gets the structure cleared —
the source builds that second update from the *stale* grid and tile (both
`const next=[...grid]` / `{...t}` capture pre-removal values), which the model
reproduces by applying the structure-clear to the original tile. In build
mode: water needs bridge mode and `BRIDGE_COST`; grass rejects thicket, costs
`ROAD_BASE_COST + BIOME_ROAD_MOD[biome]`; road/bridge tiles are untouched.
`placed` is true exactly when a road or bridge was built and paid for. -/
def placeRoadOrBridge (bridgeMode removeMode : Bool) (idx : Nat)
    (grid : List Tile) (res : Resources) : RoadOut :=
  match grid.get? idx with
  | none => ⟨grid, res, false⟩
  | some t =>
    if removeMode then
      let hadPath := t.terrain = Terrain.road ∨ t.terrain = Terrain.bridge
      let refund := if t.terrain = Terrain.bridge then mkRes 1 0 1 0 0 else mkRes 1 1 0 0 0
      let r1 := if hadPath then addRes res refund else res
      let g1 := if hadPath then grid.set idx { t with terrain := Terrain.grass } else grid
      let g2 := if t.struct.isSome then grid.set idx { t with struct := none } else g1
      ⟨g2, r1, false⟩
    else if t.terrain = Terrain.water then
      if bridgeMode = false then ⟨grid, res, false⟩
      else if canAfford res BRIDGE_COST = false then ⟨grid, res, false⟩
      else ⟨grid.set idx { t with terrain := Terrain.bridge }, payRes res BRIDGE_COST, true⟩
    else if t.terrain = Terrain.grass then
      if t.biome = Biome.thicket then ⟨grid, res, false⟩
      else
        let cost := addRes ROAD_BASE_COST (biomeRoadMod t.biome)
        if canAfford res cost = false then ⟨grid, res, false⟩
        else ⟨grid.set idx { t with terrain := Terrain.road }, payRes res cost, true⟩
    else ⟨grid, res, false⟩

/-! ## City progression (part_002 computeCityStats) -/

/-- The catalog entry of a tile's structure, if any:
`t.structure && CATALOG.find(c => c.id === t.structure.id)`. -/
def cellBuilding (t : Tile) : Option Building :=
  match t.struct with
  | none => none
  | some s => findCatalog s.id

/-- This cell's contribution to housing capacity: `b.housing || 0` (0 when the
cell is empty or the id is not in the catalog). -/
def cellHousing (t : Tile) : Nat :=
  match cellBuilding t with
  | some b => b.housing
  | none => 0

/-- `hcap`: accumulated per TILE of the grid scan (a k-cell building therefore
contributes k times). -/
def hcapOf (grid : List Tile) : Nat := grid.foldl (fun acc t => acc + cellHousing t) 0

def cellGrowth (t : Tile) : Nat :=
  match cellBuilding t with
  | some b => b.growth
  | none => 0

def growthOf (grid : List Tile) : Nat := grid.foldl (fun acc t => acc + cellGrowth t) 0

def cellHappiness (t : Tile) : Int :=
  match cellBuilding t with
  | some b => b.happiness
  | none => 0

def happyDeltaOf (grid : List Tile) : Int := grid.foldl (fun acc t => acc + cellHappiness t) 0

/-- The `uniques` set: distinct catalog ids present on the grid (insertion
order; only the count is ever used). -/
def uniqueIds (grid : List Tile) : List String :=
  grid.foldl (fun acc t =>
    match cellBuilding t with
    | some b => if acc.contains b.id then acc else acc ++ [b.id]
    | none => acc) []

def wonderAll (w : WonderProgress) : Bool := w.len8 && w.rare && w.vv

/-- The session state `computeCityStats` reads and writes. -/
structure CityState where
  grid : List Tile
  population : Nat
  housing : Nat
  happiness : Int
  tier : Nat
  wonder : WonderProgress

/-- The tier if-chain of `computeCityStats`, with the hard-coded
`l3Count = 0` kept literally (the tier-3 branch is dead code in the source).
Later `if`s override earlier ones, so the value is the highest tier whose
condition holds. -/
def tierFromStats (pop uniq : Nat) (hasWonder : Bool) : Nat :=
  let l3Count : Nat := 0
  if 300 ≤ pop ∧ hasWonder = true then 4
  else if 150 ≤ pop ∧ 2 ≤ l3Count then 3
  else if 50 ≤ pop ∧ 5 ≤ uniq then 2
  else 1

/-- part_002 `computeCityStats`: housing/growth/happiness accumulated per
tile, overcrowding penalty `⌊max(0, population - hcap) / 10⌋` against the
*old* population, clamp to [0,100], population growth
`min(hcap, pop + max(1, growth))` gated on the new happiness ≥ 50, and the
tier if-chain over the *old* population (React state reads are stale inside
the closure).  The trailing town-hall block references an unbound `p` and
throws a ReferenceError on every call — after all four state updates have
already been dispatched, so the observable step is exactly these updates and
the town-hall spawn never happens. -/
def computeCityStats (s : CityState) : CityState :=
  let hcap := hcapOf s.grid
  let growth := growthOf s.grid
  let over : Int := max 0 ((s.population : Int) - (hcap : Int))
  let happy0 : Int := 50 + happyDeltaOf s.grid - over / 10
  let happy : Int := max 0 (min 100 happy0)
  let canGrow := decide (50 ≤ happy)
  let pop' := if canGrow then min hcap (s.population + max 1 growth) else s.population
  { s with
    housing := hcap
    happiness := happy
    population := pop'
    tier := tierFromStats s.population (uniqueIds s.grid).length (wonderAll s.wonder) }

/-! ## Helper definitions and lemmas for the river band -/

/-- The terrain stored at column `c`, row `r` (row-major indexing). -/
def terrainAt (g : List Tile) (size c r : Nat) : Option Terrain :=
  (g.get? (r * size + c)).map Tile.terrain

/-- The river row just before column `x` of the carve. -/
def riverYAt (size : Nat) (seed : String) (x : Nat) : Int :=
  (carveStateAt size (hashSeed seed) x).y

/-- The band half-width drawn at column `x`:
`1 + (rnd() < 0.45 ? 0 : 1)` on the carve state before that column. -/
def riverWAt (size : Nat) (seed : String) (x : Nat) : Nat :=
  if randLt (rngNext (carveStateAt size (hashSeed seed) x).rng) 45 100 then 1 else 2

lemma modifyTile_length (g : List Tile) (i : Nat) (f : Tile → Tile) :
    (modifyTile g i f).length = g.length := by
  unfold modifyTile
  cases hg : g.get? i <;> simp [hg]

lemma setWaterXY_length (size : Nat) (ts : List Tile) (x y : Int) :
    (setWaterXY size ts x y).length = ts.length := by
  unfold setWaterXY
  split
  · exact modifyTile_length ..
  · rfl

lemma idx_lt {size c r : Nat} (hc : c < size) (hr : r < size) : r * size + c < size * size :=
  calc r * size + c < r * size + size := by omega
  _ = (r + 1) * size := by ring
  _ ≤ size * size := Nat.mul_le_mul_right _ (by omega)

lemma idx_inj {size a b c d : Nat} (hb : b < size) (hd : d < size)
    (h : a * size + b = c * size + d) : a = c ∧ b = d := by
  have h1 : (a * size + b) % size = b := by
    rw [Nat.add_comm, Nat.add_mul_mod_self_right, Nat.mod_eq_of_lt hb]
  have h2 : (c * size + d) % size = d := by
    rw [Nat.add_comm, Nat.add_mul_mod_self_right, Nat.mod_eq_of_lt hd]
  have hbd : b = d := by rw [← h1, ← h2, h]
  have hac : a = c := by
    have hs : 0 < size := by omega
    have hm : a * size = c * size := by omega
    exact Nat.eq_of_mul_eq_mul_right hs hm
  exact ⟨hac, hbd⟩

lemma modifyTile_get? (g : List Tile) (i j : Nat) (f : Tile → Tile) :
    (modifyTile g i f).get? j = if i = j then (g.get? j).map f else g.get? j := by
  unfold modifyTile
  cases hg : g.get? i with
  | none =>
    simp only [hg]
    split
    · rename_i hij; subst hij; rw [hg]; rfl
    · rfl
  | some t =>
    simp only [hg]
    split
    · rename_i hij; subst hij
      rw [List.get?_set_eq, hg]; rfl
    · rename_i hij
      exact List.get?_set_ne _ _ hij

lemma setWaterXY_terrainAt {size c r : Nat} {ts : List Tile} (x y : Int)
    (hts : ts.length = size * size) (hc : c < size) (hr : r < size) :
    terrainAt (setWaterXY size ts x y) size c r =
      if x = (c : Int) ∧ y = (r : Int) then some Terrain.water
      else terrainAt ts size c r := by
  unfold setWaterXY terrainAt
  split
  · rename_i hg
    rw [modifyTile_get?]
    by_cases he : y.toNat * size + x.toNat = r * size + c
    · rw [if_pos he]
      have hxlt : x.toNat < size := by omega
      obtain ⟨hy, hx⟩ := idx_inj hxlt hc he
      have hx' : x = (c : Int) := by omega
      have hy' : y = (r : Int) := by omega
      rw [if_pos ⟨hx', hy'⟩]
      cases hcell : ts.get? (r * size + c) with
      | none =>
        exfalso
        have h1 := List.get?_eq_none.mp hcell
        have h2 := idx_lt hc hr
        omega
      | some t => rfl
    · have hcond : ¬(x = (c : Int) ∧ y = (r : Int)) := by
        rintro ⟨hx, hy⟩
        apply he
        have h1 : x.toNat = c := by omega
        have h2 : y.toNat = r := by omega
        rw [h1, h2]
      rw [if_neg he, if_neg hcond]
  · rename_i hg
    rw [if_neg]
    rintro ⟨hx, hy⟩
    exact hg (by omega)

lemma band_fold_length (size : Nat) (x : Nat) (y0 : Int) :
    ∀ (l : List Nat) (ts : List Tile),
      ((l.foldl (fun (a : List Tile) (k : Nat) => setWaterXY size a (x : Int) (y0 + k)) ts)).length =
        ts.length := by
  intro l
  induction l with
  | nil => intro ts; rfl
  | cons k l ih =>
    intro ts
    simp only [List.foldl_cons]
    rw [ih, setWaterXY_length]

lemma band_fold_terrainAt {size c r : Nat} (x : Nat) (y0 : Int)
    (hc : c < size) (hr : r < size) :
    ∀ (n : Nat) (ts : List Tile), ts.length = size * size →
      terrainAt ((List.range n).foldl
          (fun (a : List Tile) (k : Nat) => setWaterXY size a (x : Int) (y0 + k)) ts) size c r =
        if (x : Int) = (c : Int) ∧ ∃ k : Nat, k < n ∧ y0 + (k : Int) = (r : Int) then
          some Terrain.water
        else terrainAt ts size c r := by
  intro n
  induction n with
  | zero =>
    intro ts hts
    rw [if_neg]
    · rfl
    · rintro ⟨-, k, hk, -⟩
      omega
  | succ n ih =>
    intro ts hts
    rw [List.range_succ, List.foldl_append, List.foldl_cons, List.foldl_nil]
    have hlen : ((List.range n).foldl
        (fun (a : List Tile) (k : Nat) => setWaterXY size a (x : Int) (y0 + k)) ts).length =
        size * size := by rw [band_fold_length]; exact hts
    rw [setWaterXY_terrainAt _ _ hlen hc hr, ih ts hts]
    by_cases hxc : (x : Int) = (c : Int)
    · by_cases hk : y0 + (n : Int) = (r : Int)
      · rw [if_pos ⟨hxc, hk⟩, if_pos ⟨hxc, n, by omega, hk⟩]
      · rw [if_neg (by rintro ⟨-, h⟩; exact hk h)]
        by_cases hex : ∃ k : Nat, k < n ∧ y0 + (k : Int) = (r : Int)
        · obtain ⟨k, hk1, hk2⟩ := hex
          rw [if_pos ⟨hxc, k, hk1, hk2⟩, if_pos ⟨hxc, k, by omega, hk2⟩]
        · rw [if_neg (by rintro ⟨-, k, hk1, hk2⟩; exact hex ⟨k, hk1, hk2⟩),
            if_neg (by rintro ⟨-, k, hk1, hk2⟩
                       rcases Nat.lt_succ_iff_lt_or_eq.mp hk1 with h | h
                       · exact hex ⟨k, h, hk2⟩
                       · subst h; exact hk hk2)]
    · rw [if_neg (by rintro ⟨h, -⟩; exact hxc h),
        if_neg (by rintro ⟨h, -⟩; exact hxc h),
        if_neg (by rintro ⟨h, -⟩; exact hxc h)]

/-! ## Helper lemmas for word submission -/

/-- The refill loop pushes all `n` letters when the first test passes
(`n ≤ take + 1`) and none otherwise: once `toFill-1 < take+1` holds it holds
for every later value, and if it fails at the first iteration the loop exits
with nothing pushed. -/
lemma whileRefill_eq : ∀ n take : Nat, whileRefill n take = if n ≤ take + 1 then n else 0 := by
  intro n
  induction n with
  | zero => intro take; simp [whileRefill]
  | succ n ih =>
    intro take
    rw [whileRefill]
    by_cases h : n < take + 1
    · rw [if_pos h, ih take, if_pos (by omega), if_pos (by omega)]
    · rw [if_neg h, if_neg (by omega)]

lemma consume_aux_len : ∀ (l : List Char) (acc : List Char × List Char),
    ((l.foldl (fun acc ch =>
      if acc.2.contains ch then (acc.1, acc.2.erase ch) else (acc.1 ++ [ch], acc.2)) acc).1).length ≤
      acc.1.length + l.length := by
  intro l
  induction l with
  | nil => intro acc; simp
  | cons ch l ih =>
    intro acc
    simp only [List.foldl_cons]
    by_cases h : acc.2.contains ch
    · rw [if_pos h]
      have h2 := ih (acc.1, acc.2.erase ch)
      dsimp only at h2
      simp only [List.length_cons]
      omega
    · rw [if_neg h]
      have h2 := ih (acc.1 ++ [ch], acc.2)
      dsimp only at h2
      simp only [List.length_append, List.length_cons, List.length_singleton,
        List.length_nil] at h2 ⊢
      omega

/-- The letters kept after consumption never exceed the rack size. -/
lemma consumeRack_length_le (word rack : List Char) :
    (consumeRack word rack).length ≤ rack.length := by
  unfold consumeRack
  have h := consume_aux_len rack ([], word)
  simpa using h

/-- `submitWordV7` either rejects (state unchanged) or accepts with exactly
this state: yields added, letters consumed, pool-limited refill, wonder flags
or-ed. -/
lemma submitV7_shape (grid : List Tile) (tier : Nat) (happiness : Int)
    (dict : String → Bool) (letters : Nat → Char) (st : SubmitV7State) (raw : String) :
    submitWordV7 grid tier happiness dict letters st raw = ⟨st, false⟩ ∨
    submitWordV7 grid tier happiness dict letters st raw =
      ⟨{ rack := consumeRack (normalizeWord raw) st.rack ++
           (List.range (whileRefill
             (st.rack.length - (consumeRack (normalizeWord raw) st.rack).length)
             (min (st.rack.length - (consumeRack (normalizeWord raw) st.rack).length)
               st.letterPool))).map letters
         res := addRes st.res (yieldToRes (resourceYieldBase grid tier happiness (normalizeWord raw)))
         letterPool := st.letterPool -
           min (st.rack.length - (consumeRack (normalizeWord raw) st.rack).length) st.letterPool
         wonder := { len8 := st.wonder.len8 || decide (8 ≤ (normalizeWord raw).length)
                     rare := st.wonder.rare || (normalizeWord raw).any isRareWonder
                     vv := st.wonder.vv || hasDoubleVowel (normalizeWord raw) } }, true⟩ := by
  simp only [submitWordV7]
  split
  · exact Or.inl rfl
  · split
    · exact Or.inl rfl
    · split
      · exact Or.inl rfl
      · exact Or.inr rfl

/-- `submitWordV0` either rejects (rack and resources unchanged) or accepts
with letters consumed and the rack refilled to its full length. -/
lemma submitV0_shape (tier : Nat) (happiness : Int) (dict : String → Bool)
    (letters : Nat → Char) (rack : List Char) (res : Resources) (raw : String) :
    submitWordV0 tier happiness dict letters rack res raw = ⟨rack, res, false⟩ ∨
    submitWordV0 tier happiness dict letters rack res raw =
      ⟨consumeRack (normalizeWord raw) rack ++
         (List.range (rack.length - (consumeRack (normalizeWord raw) rack).length)).map letters,
       addRes res (yieldToRes (scaleYield happiness (baseGainBasic (normalizeWord raw)))), true⟩ := by
  simp only [submitWordV0]
  by_cases ht : 2 ≤ tier
  · rw [if_pos ht]
    split
    · exact Or.inl rfl
    · split
      · exact Or.inl rfl
      · split
        · exact Or.inl rfl
        · exact Or.inr rfl
  · rw [if_neg ht]
    split
    · exact Or.inl rfl
    · split
      · exact Or.inl rfl
      · split
        · exact Or.inl rfl
        · exact Or.inr rfl

/-! ## Helper lemmas for building placement -/

/-- At level 1 the cost scale is exactly 1. -/
lemma scaledCostC_one (c : Int) : scaledCostC c 1 = c := by
  unfold scaledCostC ceilDiv
  simp

lemma scaledCost_one (b : Building) : scaledCost b 1 = b.cost := by
  unfold scaledCost
  rw [scaledCostC_one, scaledCostC_one, scaledCostC_one, scaledCostC_one, scaledCostC_one]

/-- The footprint check in propositional form. -/
lemma footprintOk_iff (grid : List Tile) (fp : List Nat) :
    footprintOk grid fp = true ↔
      ∀ ii ∈ fp, ∃ t, grid.get? ii = some t ∧
        (t.terrain = Terrain.road ∨ t.terrain = Terrain.bridge) ∧ t.struct = none := by
  unfold footprintOk
  rw [List.all_eq_true]
  constructor
  · intro h ii hii
    have h2 := h ii hii
    cases hg : grid.get? ii with
    | none =>
      rw [hg] at h2
      exact absurd h2 (by simp)
    | some t =>
      rw [hg] at h2
      rw [decide_eq_true_eq] at h2
      exact ⟨t, rfl, h2⟩
  · intro h ii hii
    obtain ⟨t, hg, hcond⟩ := h ii hii
    rw [hg]
    exact decide_eq_true hcond

/-- Folding struct-setting updates over a list of indices: a cell's lookup is
`f`-mapped exactly when its index occurs in the list (the update `f` is
idempotent, so duplicates are harmless), and untouched otherwise. -/
lemma foldl_modify_get? (f : Tile → Tile) (hf : ∀ t, f (f t) = f t) :
    ∀ (l : List Nat) (g : List Tile) (j : Nat),
      ((l.foldl (fun g ii => modifyTile g ii f) g).get? j) =
        if j ∈ l then (g.get? j).map f else g.get? j := by
  intro l
  induction l with
  | nil => intro g j; simp
  | cons a l ih =>
    intro g j
    simp only [List.foldl_cons]
    rw [ih]
    by_cases hjl : j ∈ l
    · rw [if_pos hjl, if_pos (List.mem_cons_of_mem a hjl), modifyTile_get?]
      by_cases haj : a = j
      · rw [if_pos haj]
        cases g.get? j with
        | none => rfl
        | some t => simp [hf]
      · rw [if_neg haj]
    · rw [if_neg hjl, modifyTile_get?]
      by_cases haj : a = j
      · rw [if_pos haj, if_pos (by rw [← haj]; exact List.mem_cons_self a l)]
      · rw [if_neg haj, if_neg (by
          rw [List.mem_cons]
          rintro (h | h)
          · exact haj h.symm
          · exact hjl h)]

/-! ## Helper lemmas for city stats -/

lemma hcap_aux : ∀ (g : List Tile) (a : Nat),
    List.foldl (fun acc t => acc + cellHousing t) a g = a + hcapOf g := by
  intro g
  induction g with
  | nil => intro a; simp [hcapOf]
  | cons t g ih =>
    intro a
    simp only [hcapOf, List.foldl_cons] at *
    rw [ih (a + cellHousing t), ih (0 + cellHousing t)]
    omega

lemma hcap_cons (t : Tile) (g : List Tile) : hcapOf (t :: g) = cellHousing t + hcapOf g := by
  show List.foldl (fun acc t => acc + cellHousing t) 0 (t :: g) = _
  rw [List.foldl_cons, hcap_aux]
  omega

lemma hcap_set_none : ∀ (g : List Tile) (i : Nat) (t t' : Tile),
    g.get? i = some t → cellHousing t = 0 →
    hcapOf (g.set i t') = hcapOf g + cellHousing t' := by
  intro g
  induction g with
  | nil =>
    intro i t t' hg _
    simp at hg
  | cons x xs ih =>
    intro i t t' hg h0
    cases i with
    | zero =>
      simp only [List.get?_cons_zero] at hg
      injection hg with hx
      subst hx
      show hcapOf (t' :: xs) = hcapOf (x :: xs) + cellHousing t'
      rw [hcap_cons, hcap_cons, h0]
      omega
    | succ i =>
      simp only [List.get?_cons_succ] at hg
      show hcapOf (x :: xs.set i t') = hcapOf (x :: xs) + cellHousing t'
      rw [hcap_cons, hcap_cons, ih i t t' hg h0]
      omega

/-- Setting the same structure on a list of distinct, currently structure-free
cells raises the per-tile housing accumulator by once-per-cell. -/
lemma hcap_fold_place (b : Building) :
    ∀ (fp : List Nat) (g : List Tile), fp.Nodup →
      (∀ ii ∈ fp, ∃ t, g.get? ii = some t ∧ t.struct = none) →
      hcapOf (fp.foldl (fun g ii =>
          modifyTile g ii (fun t => { t with struct := some (placedStruct b) })) g) =
        hcapOf g + fp.length * cellHousing (placedTile b) := by
  intro fp
  induction fp with
  | nil => intro g _ _; simp
  | cons ii fp ih =>
    intro g hnd hcells
    obtain ⟨t, hgt, hst⟩ := hcells ii (List.mem_cons_self ii fp)
    simp only [List.foldl_cons]
    have hmod : modifyTile g ii (fun t => { t with struct := some (placedStruct b) }) =
        g.set ii { t with struct := some (placedStruct b) } := by
      unfold modifyTile; rw [hgt]
    rw [hmod]
    have hnd' := List.nodup_cons.mp hnd
    have hcells' : ∀ jj ∈ fp, ∃ t2,
        (g.set ii { t with struct := some (placedStruct b) }).get? jj = some t2 ∧
        t2.struct = none := by
      intro jj hjj
      obtain ⟨t2, hg2, hs2⟩ := hcells jj (List.mem_cons_of_mem ii hjj)
      refine ⟨t2, ?_, hs2⟩
      rw [List.get?_set_ne _ _ (fun he => hnd'.1 (by rw [he]; exact hjj))]
      exact hg2
    have hch : cellHousing
        { terrain := t.terrain, biome := t.biome, struct := some (placedStruct b) } =
        cellHousing (placedTile b) := rfl
    rw [ih _ hnd'.2 hcells',
      hcap_set_none g ii t _ hgt (by simp [cellHousing, cellBuilding, hst]),
      List.length_cons, Nat.succ_mul, hch]
    omega

lemma tierFromStats_mono :
    ∀ (p1 p2 u1 u2 : Nat) (w1 w2 : Bool), p1 ≤ p2 → u1 ≤ u2 → (w1 = true → w2 = true) →
      tierFromStats p1 u1 w1 ≤ tierFromStats p2 u2 w2 := by
  intro p1 p2 u1 u2 w1 w2 hp hu hw
  simp only [tierFromStats]
  rw [if_neg (by omega : ¬(150 ≤ p1 ∧ 2 ≤ (0 : Nat))),
    if_neg (by omega : ¬(150 ≤ p2 ∧ 2 ≤ (0 : Nat)))]
  by_cases hA1 : 300 ≤ p1 ∧ w1 = true
  · have hA2 : 300 ≤ p2 ∧ w2 = true := ⟨by omega, hw hA1.2⟩
    rw [if_pos hA1, if_pos hA2]
  · rw [if_neg hA1]
    by_cases hA2 : 300 ≤ p2 ∧ w2 = true
    · rw [if_pos hA2]
      split_ifs <;> omega
    · rw [if_neg hA2]
      by_cases hB1 : 50 ≤ p1 ∧ 5 ≤ u1
      · have hB2 : 50 ≤ p2 ∧ 5 ≤ u2 := ⟨by omega, by omega⟩
        rw [if_pos hB1, if_pos hB2]
      · rw [if_neg hB1]
        split_ifs <;> omega

lemma computeCityStats_tier_eq (s : CityState) :
    (computeCityStats s).tier =
      tierFromStats s.population (uniqueIds s.grid).length (wonderAll s.wonder) := rfl

lemma computeCityStats_grid_eq (s : CityState) : (computeCityStats s).grid = s.grid := rfl

lemma computeCityStats_wonder_eq (s : CityState) : (computeCityStats s).wonder = s.wonder := rfl

lemma computeCityStats_pop_ge (s : CityState) (h : s.population ≤ hcapOf s.grid) :
    s.population ≤ (computeCityStats s).population := by
  simp only [computeCityStats]
  split <;> omega

/-! ## Claim theorems -/

/-- C1.  The terrain generator is deterministic: it factors through the
32-bit FNV-1a hash of the seed string, so any two calls whose seeds hash
equally (in particular two calls with the very same seed string) produce
identical grids — the generation consumes only the seeded LCG stream, with no
other source of randomness. -/
theorem generateTerrain_deterministic :
    (∀ (size : Nat) (seed : String),
      generateTerrain size seed = generateTerrainFromState size (hashSeed seed)) ∧
    (∀ (size : Nat) (s1 s2 : String), hashSeed s1 = hashSeed s2 →
      generateTerrain size s1 = generateTerrain size s2) := by
  refine ⟨fun _ _ => rfl, fun size s1 s2 h => ?_⟩
  unfold generateTerrain
  rw [h]

/-- Witness for C1 at a concrete input: "costarring" and "liquid" are a
genuine 32-bit FNV-1a collision, so the generator cannot tell them apart. -/
theorem generateTerrain_deterministic_witness :
    hashSeed ("costarring") = hashSeed ("liquid") ∧
    generateTerrain 8 ("costarring") = generateTerrain 8 ("liquid") :=
  ⟨by decide, generateTerrain_deterministic.2 8 ("costarring") ("liquid") (by decide)⟩

/-- C2.  In both submit variants, when the submission is rejected by any of
the three validation gates (too short for the tier, not formable from the
rack, not in the dictionary), the resources and the rack are left exactly
unchanged and the submission reports as not accepted. -/
theorem submit_rejected_state_unchanged :
    (∀ (grid : List Tile) (tier : Nat) (happiness : Int) (dict : String → Bool)
       (letters : Nat → Char) (st : SubmitV7State) (raw : String),
      ((normalizeWord raw).length < 3 ∨
        canFormFromRack (normalizeWord raw) st.rack = false ∨
        dict (String.mk (normalizeWord raw)) = false) →
      (submitWordV7 grid tier happiness dict letters st raw).state = st ∧
      (submitWordV7 grid tier happiness dict letters st raw).accepted = false) ∧
    (∀ (tier : Nat) (happiness : Int) (dict : String → Bool) (letters : Nat → Char)
       (rack : List Char) (res : Resources) (raw : String),
      ((normalizeWord raw).length < (if 2 ≤ tier then 4 else 3) ∨
        canFormFromRack (normalizeWord raw) rack = false ∨
        dict (String.mk (normalizeWord raw)) = false) →
      (submitWordV0 tier happiness dict letters rack res raw).res = res ∧
      (submitWordV0 tier happiness dict letters rack res raw).rack = rack ∧
      (submitWordV0 tier happiness dict letters rack res raw).accepted = false) := by
  constructor
  · intro grid tier happiness dict letters st raw h
    have hs : submitWordV7 grid tier happiness dict letters st raw = ⟨st, false⟩ := by
      simp only [submitWordV7]
      split
      · rfl
      · split
        · rfl
        · split
          · rfl
          · rename_i h1 h2 h3
            rcases h with h | h | h
            · exact absurd h h1
            · exact absurd h h2
            · exact absurd h h3
    rw [hs]
    exact ⟨rfl, rfl⟩
  · intro tier happiness dict letters rack res raw h
    have hs : submitWordV0 tier happiness dict letters rack res raw = ⟨rack, res, false⟩ := by
      simp only [submitWordV0]
      by_cases ht : 2 ≤ tier
      · rw [if_pos ht] at h ⊢
        split
        · rfl
        · split
          · rfl
          · split
            · rfl
            · rename_i h1 h2 h3
              rcases h with h | h | h
              · exact absurd h h1
              · exact absurd h h2
              · exact absurd h h3
      · rw [if_neg ht] at h ⊢
        split
        · rfl
        · split
          · rfl
          · split
            · rfl
            · rename_i h1 h2 h3
              rcases h with h | h | h
              · exact absurd h h1
              · exact absurd h h2
              · exact absurd h h3
    rw [hs]
    exact ⟨rfl, rfl, rfl⟩

/-- Witness for C2: the too-short word "AB" is rejected by both variants with
resources and rack untouched. -/
theorem submit_rejected_state_unchanged_witness :
    ((normalizeWord ("AB")).length < 3 ∨
      canFormFromRack (normalizeWord ("AB")) ['A', 'B', 'C'] = false ∨
      (fun (_ : String) => false) (String.mk (normalizeWord ("AB"))) = false) ∧
    (submitWordV7 [] 1 100 (fun _ => false) (fun _ => 'E')
        ⟨['A', 'B', 'C'], Resources.zero, 5, ⟨false, false, false⟩⟩ ("AB")).state =
      ⟨['A', 'B', 'C'], Resources.zero, 5, ⟨false, false, false⟩⟩ ∧
    (submitWordV7 [] 1 100 (fun _ => false) (fun _ => 'E')
        ⟨['A', 'B', 'C'], Resources.zero, 5, ⟨false, false, false⟩⟩ ("AB")).accepted = false :=
  ⟨Or.inl (by decide),
   (submit_rejected_state_unchanged.1 [] 1 100 (fun _ => false) (fun _ => 'E')
      ⟨['A', 'B', 'C'], Resources.zero, 5, ⟨false, false, false⟩⟩ ("AB")
      (Or.inl (by decide))).1,
   (submit_rejected_state_unchanged.1 [] 1 100 (fun _ => false) (fun _ => 'E')
      ⟨['A', 'B', 'C'], Resources.zero, 5, ⟨false, false, false⟩⟩ ("AB")
      (Or.inl (by decide))).2⟩

/-- C4 (amended).  At every column of the river carve the generator draws a
half-width `w ∈ {1, 2}` (`w = 1` iff the draw is `< 0.45`, i.e. with
probability ≈45%) and marks as water exactly the rows of that column between
`y - w` and `y + w`, clipped to the grid — a band of `2w+1 = 3` or `5` tiles
(before clipping), not 1 or 2. -/
theorem river_band_characterization :
    (∀ (size : Nat) (seed : String) (x : Nat),
      riverWAt size seed x = 1 ∨ riverWAt size seed x = 2) ∧
    (∀ (size : Nat) (ts : List Tile) (x : Nat) (y : Int) (w : Nat) (c r : Nat),
      ts.length = size * size → c < size → r < size →
      terrainAt (applyBand size ts x y w) size c r =
        if c = x ∧ y - (w : Int) ≤ (r : Int) ∧ (r : Int) ≤ y + (w : Int) then
          some Terrain.water
        else terrainAt ts size c r) := by
  constructor
  · intro size seed x
    unfold riverWAt
    split
    · exact Or.inl rfl
    · exact Or.inr rfl
  · intro size ts x y w c r hts hc hr
    unfold applyBand
    rw [band_fold_terrainAt x (y - (w : Int)) hc hr (2 * w + 1) ts hts]
    have hiff : ((x : Int) = (c : Int) ∧
        ∃ k : Nat, k < 2 * w + 1 ∧ (y - (w : Int)) + (k : Int) = (r : Int)) ↔
        (c = x ∧ y - (w : Int) ≤ (r : Int) ∧ (r : Int) ≤ y + (w : Int)) := by
      constructor
      · rintro ⟨hx, k, hk1, hk2⟩
        exact ⟨by exact_mod_cast hx.symm, by omega, by omega⟩
      · rintro ⟨hx, h1, h2⟩
        subst hx
        exact ⟨rfl, ((r : Int) - (y - (w : Int))).toNat, by omega, by omega⟩
    exact if_congr hiff rfl rfl

/-- Counterexample to C4 as stated: with grid size 9 and seed "a", column 0
of the river carve starts with no water anywhere in the column and the band
step marks 3 tiles of that column as water — not a band of width exactly 1 or
exactly 2. -/
theorem river_band_cex :
    ((List.range 9).filter (fun r =>
        decide (terrainAt (carveStateAt 9 (hashSeed ("a")) 0).tiles 9 0 r =
          some Terrain.water))).length = 0 ∧
    ((List.range 9).filter (fun r =>
        decide (terrainAt
          (applyBand 9 (carveStateAt 9 (hashSeed ("a")) 0).tiles 0
            (riverYAt 9 ("a") 0) (riverWAt 9 ("a") 0)) 9 0 r =
          some Terrain.water))).length = 3 ∧
    ¬((3 : Nat) = 1 ∨ (3 : Nat) = 2) :=
  ⟨by decide, by decide, by decide⟩

/-- Witness for C4's amended characterization at a concrete band. -/
theorem river_band_characterization_witness :
    ((List.replicate 16 grassTile).length = 4 * 4 ∧ (1 : Nat) < 4 ∧ (2 : Nat) < 4) ∧
    terrainAt (applyBand 4 (List.replicate 16 grassTile) 1 2 1) 4 1 2 = some Terrain.water :=
  ⟨⟨by decide, by decide, by decide⟩, by
    have h := river_band_characterization.2 4 (List.replicate 16 grassTile)
      1 2 1 1 2 (by decide) (by decide) (by decide)
    rw [h]
    decide⟩

/-- C7 (amended).  After an accepted v7 submission consuming `n` letters, the
rack is refilled to its fixed size only when the letter pool holds at least
`n - 1` letters (`n ≤ pool + 1`); when `pool + 1 < n` the botched refill loop
pushes nothing and the rack shrinks to the `rack.length - n` leftover letters.
The pool always decreases by `min n pool`.  The part_000 variant (no letter
pool) always restores the rack to its fixed length. -/
theorem rack_refill_spec :
    (∀ (grid : List Tile) (tier : Nat) (happiness : Int) (dict : String → Bool)
       (letters : Nat → Char) (st : SubmitV7State) (raw : String),
      (submitWordV7 grid tier happiness dict letters st raw).accepted = true →
      ((st.rack.length - (consumeRack (normalizeWord raw) st.rack).length ≤ st.letterPool + 1 →
          (submitWordV7 grid tier happiness dict letters st raw).state.rack.length =
            st.rack.length) ∧
       (st.letterPool + 1 < st.rack.length - (consumeRack (normalizeWord raw) st.rack).length →
          (submitWordV7 grid tier happiness dict letters st raw).state.rack.length =
            (consumeRack (normalizeWord raw) st.rack).length) ∧
       (submitWordV7 grid tier happiness dict letters st raw).state.letterPool =
          st.letterPool -
            min (st.rack.length - (consumeRack (normalizeWord raw) st.rack).length)
              st.letterPool)) ∧
    (∀ (tier : Nat) (happiness : Int) (dict : String → Bool) (letters : Nat → Char)
       (rack : List Char) (res : Resources) (raw : String),
      (submitWordV0 tier happiness dict letters rack res raw).accepted = true →
      (submitWordV0 tier happiness dict letters rack res raw).rack.length = rack.length) := by
  constructor
  · intro grid tier happiness dict letters st raw hacc
    rcases submitV7_shape grid tier happiness dict letters st raw with hs | hs
    · rw [hs] at hacc
      exact absurd hacc (by simp)
    · rw [hs]
      have hk := consumeRack_length_le (normalizeWord raw) st.rack
      refine ⟨?_, ?_, rfl⟩
      · intro hpool
        simp only [List.length_append, List.length_map, List.length_range, whileRefill_eq]
        rw [if_pos (by omega)]
        omega
      · intro hpool
        simp only [List.length_append, List.length_map, List.length_range, whileRefill_eq]
        rw [if_neg (by omega)]
        omega
  · intro tier happiness dict letters rack res raw hacc
    rcases submitV0_shape tier happiness dict letters rack res raw with hs | hs
    · rw [hs] at hacc
      exact absurd hacc (by simp)
    · rw [hs]
      have hk := consumeRack_length_le (normalizeWord raw) rack
      simp only [List.length_append, List.length_map, List.length_range]
      omega

/-- Counterexample to C7 as stated: with an empty letter pool, the accepted
submission "STONE" on the 8-letter rack `[S,T,O,N,E,A,B,C]` leaves a rack of
only 3 letters — the consumed slots are not refilled. -/
theorem rack_refill_cex :
    (submitWordV7 [] 1 100 (fun w => w == "STONE") (fun _ => 'E')
        ⟨['S', 'T', 'O', 'N', 'E', 'A', 'B', 'C'], Resources.zero, 0,
          ⟨false, false, false⟩⟩ ("STONE")).accepted = true ∧
    (['S', 'T', 'O', 'N', 'E', 'A', 'B', 'C'] : List Char).length = 8 ∧
    (submitWordV7 [] 1 100 (fun w => w == "STONE") (fun _ => 'E')
        ⟨['S', 'T', 'O', 'N', 'E', 'A', 'B', 'C'], Resources.zero, 0,
          ⟨false, false, false⟩⟩ ("STONE")).state.rack.length = 3 ∧
    ¬((3 : Nat) = 8) :=
  ⟨by decide, by decide, by decide, by decide⟩

/-- Witness for C7's amended refill rule: with a pool of 18 the same
submission does refill the rack to its fixed size 8, and the part_000 variant
always does. -/
theorem rack_refill_spec_witness :
    (submitWordV7 [] 1 100 (fun w => w == "STONE") (fun _ => 'E')
        ⟨['S', 'T', 'O', 'N', 'E', 'A', 'B', 'C'], Resources.zero, 18,
          ⟨false, false, false⟩⟩ ("STONE")).accepted = true ∧
    (submitWordV7 [] 1 100 (fun w => w == "STONE") (fun _ => 'E')
        ⟨['S', 'T', 'O', 'N', 'E', 'A', 'B', 'C'], Resources.zero, 18,
          ⟨false, false, false⟩⟩ ("STONE")).state.rack.length =
      (['S', 'T', 'O', 'N', 'E', 'A', 'B', 'C'] : List Char).length ∧
    (submitWordV0 1 100 (fun w => w == "STONE") (fun _ => 'E')
        ['S', 'T', 'O', 'N', 'E', 'A', 'B', 'C'] Resources.zero ("STONE")).rack.length =
      (['S', 'T', 'O', 'N', 'E', 'A', 'B', 'C'] : List Char).length :=
  ⟨by decide,
   (rack_refill_spec.1 [] 1 100 (fun w => w == "STONE") (fun _ => 'E')
      ⟨['S', 'T', 'O', 'N', 'E', 'A', 'B', 'C'], Resources.zero, 18, ⟨false, false, false⟩⟩
      ("STONE") (by decide)).1 (by decide),
   rack_refill_spec.2 1 100 (fun w => w == "STONE") (fun _ => 'E')
     ['S', 'T', 'O', 'N', 'E', 'A', 'B', 'C'] Resources.zero ("STONE") (by decide)⟩

/-- C8 (amended).  After an accepted v7 submission, the rare-letter wonder
flag equals its previous value OR-ed with whether the word contains Q, X or Z
(the wonder check's `/[QXZ]/` — not the yield engine's J,Q,X,Z,K,V class);
in particular the flag never transitions from true to false. -/
theorem rare_flag_spec :
    ∀ (grid : List Tile) (tier : Nat) (happiness : Int) (dict : String → Bool)
      (letters : Nat → Char) (st : SubmitV7State) (raw : String),
      (submitWordV7 grid tier happiness dict letters st raw).accepted = true →
      (submitWordV7 grid tier happiness dict letters st raw).state.wonder.rare =
        (st.wonder.rare || (normalizeWord raw).any isRareWonder) ∧
      (st.wonder.rare = true →
        (submitWordV7 grid tier happiness dict letters st raw).state.wonder.rare = true) := by
  intro grid tier happiness dict letters st raw hacc
  rcases submitV7_shape grid tier happiness dict letters st raw with hs | hs
  · rw [hs] at hacc
    exact absurd hacc (by simp)
  · rw [hs]
    exact ⟨rfl, fun h => by simp [h]⟩

/-- Counterexample to C8 as stated: "KNIGHT" contains the rare letter K (in
the J,Q,X,Z,K,V class the claim refers to), the submission is accepted, yet
the rare-letter wonder flag stays false because the code only tests Q, X, Z. -/
theorem rare_flag_cex :
    (submitWordV7 [] 1 100 (fun w => w == "KNIGHT") (fun _ => 'E')
        ⟨['K', 'N', 'I', 'G', 'H', 'T', 'A', 'B'], Resources.zero, 18,
          ⟨false, false, false⟩⟩ ("KNIGHT")).accepted = true ∧
    (normalizeWord ("KNIGHT")).any isRareYield = true ∧
    (submitWordV7 [] 1 100 (fun w => w == "KNIGHT") (fun _ => 'E')
        ⟨['K', 'N', 'I', 'G', 'H', 'T', 'A', 'B'], Resources.zero, 18,
          ⟨false, false, false⟩⟩ ("KNIGHT")).state.wonder.rare = false :=
  ⟨by decide, by decide, by decide⟩

/-- Witness for C8's amended flag rule: "QUIZ" sets the flag. -/
theorem rare_flag_spec_witness :
    (submitWordV7 [] 1 100 (fun w => w == "QUIZ") (fun _ => 'E')
        ⟨['Q', 'U', 'I', 'Z', 'A', 'B', 'C', 'D'], Resources.zero, 18,
          ⟨false, false, false⟩⟩ ("QUIZ")).accepted = true ∧
    (submitWordV7 [] 1 100 (fun w => w == "QUIZ") (fun _ => 'E')
        ⟨['Q', 'U', 'I', 'Z', 'A', 'B', 'C', 'D'], Resources.zero, 18,
          ⟨false, false, false⟩⟩ ("QUIZ")).state.wonder.rare =
      (false || (normalizeWord ("QUIZ")).any isRareWonder) :=
  ⟨by decide,
   (rare_flag_spec [] 1 100 (fun w => w == "QUIZ") (fun _ => 'E')
      ⟨['Q', 'U', 'I', 'Z', 'A', 'B', 'C', 'D'], Resources.zero, 18, ⟨false, false, false⟩⟩
      ("QUIZ") (by decide)).1⟩

/-- C3.  Building placement succeeds only if every footprint cell is in-grid
(`getFootprint` returns indices, each resolving to an existing tile), has
terrain road or bridge, holds no structure, and the level-1 scaled cost
(which equals the catalog cost) is affordable.  On success every footprint
cell receives the same structure payload (the building's id, level 1, icon
and shape), every other cell is untouched, and the resources decrease by
exactly the scaled cost, deducted once in total.  On any rejection the grid
and the resources are unchanged. -/
theorem placeBuilding_spec :
    ∀ (size : Nat) (b : Building) (idx : Nat) (grid : List Tile) (res : Resources),
      ((placeBuilding size b idx grid res).success = false →
        (placeBuilding size b idx grid res).grid = grid ∧
        (placeBuilding size b idx grid res).res = res) ∧
      ((placeBuilding size b idx grid res).success = true →
        ∃ fp, getFootprint size b idx = some fp ∧
          (∀ ii ∈ fp, ∃ t, grid.get? ii = some t ∧
            (t.terrain = Terrain.road ∨ t.terrain = Terrain.bridge) ∧ t.struct = none) ∧
          canAfford res (scaledCost b 1) = true ∧
          scaledCost b 1 = b.cost ∧
          (∀ ii ∈ fp, (placeBuilding size b idx grid res).grid.get? ii =
            (grid.get? ii).map (fun t => { t with struct := some (placedStruct b) })) ∧
          (∀ j, j ∉ fp → (placeBuilding size b idx grid res).grid.get? j = grid.get? j) ∧
          (placeBuilding size b idx grid res).res = payRes res b.cost) := by
  intro size b idx grid res
  cases hfp : getFootprint size b idx with
  | none =>
    have hone : placeBuilding size b idx grid res = ⟨grid, res, false⟩ := by
      simp only [placeBuilding, hfp]
    rw [hone]
    exact ⟨fun _ => ⟨rfl, rfl⟩, fun h => absurd h (by simp)⟩
  | some fp =>
    by_cases hok : footprintOk grid fp = false
    · have hone : placeBuilding size b idx grid res = ⟨grid, res, false⟩ := by
        simp only [placeBuilding, hfp]
        rw [if_pos hok]
      rw [hone]
      exact ⟨fun _ => ⟨rfl, rfl⟩, fun h => absurd h (by simp)⟩
    · by_cases haff : canAfford res (scaledCost b 1) = false
      · have hone : placeBuilding size b idx grid res = ⟨grid, res, false⟩ := by
          simp only [placeBuilding, hfp]
          rw [if_neg hok, if_pos haff]
        rw [hone]
        exact ⟨fun _ => ⟨rfl, rfl⟩, fun h => absurd h (by simp)⟩
      · have hone : placeBuilding size b idx grid res =
            ⟨fp.foldl (fun g ii =>
                modifyTile g ii (fun t => { t with struct := some (placedStruct b) })) grid,
             payRes res (scaledCost b 1), true⟩ := by
          simp only [placeBuilding, hfp]
          rw [if_neg hok, if_neg haff]
        rw [hone]
        have hok' : footprintOk grid fp = true := by
          revert hok; cases footprintOk grid fp <;> simp
        have haff' : canAfford res (scaledCost b 1) = true := by
          revert haff; cases canAfford res (scaledCost b 1) <;> simp
        refine ⟨fun h => absurd h (by simp),
          fun _ => ⟨fp, rfl, footprintOk_iff grid fp |>.mp hok',
            haff', scaledCost_one b, ?_, ?_, by dsimp only; rw [scaledCost_one]⟩⟩
        · intro ii hii
          have h := foldl_modify_get?
            (fun t => { t with struct := some (placedStruct b) }) (fun t => rfl) fp grid ii
          dsimp only
          rw [h, if_pos hii]
        · intro j hj
          have h := foldl_modify_get?
            (fun t => { t with struct := some (placedStruct b) }) (fun t => rfl) fp grid j
          dsimp only
          rw [h, if_neg hj]

/-- Witness for C3: a cottage placed at the corner of a 2×2 all-road grid
with exactly-sufficient resources. -/
theorem placeBuilding_spec_witness :
    (placeBuilding 2 cottageB 0 (List.replicate 4 roadTile) (mkRes 20 15 0 0 0)).success = true ∧
    (∃ fp, getFootprint 2 cottageB 0 = some fp ∧
      (∀ ii ∈ fp, ∃ t, (List.replicate 4 roadTile).get? ii = some t ∧
        (t.terrain = Terrain.road ∨ t.terrain = Terrain.bridge) ∧ t.struct = none) ∧
      canAfford (mkRes 20 15 0 0 0) (scaledCost cottageB 1) = true ∧
      scaledCost cottageB 1 = cottageB.cost ∧
      (∀ ii ∈ fp, (placeBuilding 2 cottageB 0 (List.replicate 4 roadTile)
          (mkRes 20 15 0 0 0)).grid.get? ii =
        ((List.replicate 4 roadTile).get? ii).map
          (fun t => { t with struct := some (placedStruct cottageB) })) ∧
      (∀ j, j ∉ fp → (placeBuilding 2 cottageB 0 (List.replicate 4 roadTile)
          (mkRes 20 15 0 0 0)).grid.get? j = (List.replicate 4 roadTile).get? j) ∧
      (placeBuilding 2 cottageB 0 (List.replicate 4 roadTile) (mkRes 20 15 0 0 0)).res =
        payRes (mkRes 20 15 0 0 0) cottageB.cost) :=
  ⟨by decide,
   (placeBuilding_spec 2 cottageB 0 (List.replicate 4 roadTile) (mkRes 20 15 0 0 0)).2
     (by decide)⟩

/-- C5 (amended).  The recomputed housing capacity sums the catalog `housing`
value once per occupied grid CELL, not once per structure instance: a
successful placement of catalog entry `b` on a duplicate-free footprint of
`k` cells raises the housing capacity by `k * b.housing`. -/
theorem housing_counts_per_cell :
    ∀ (size : Nat) (b : Building) (idx : Nat) (grid : List Tile) (res : Resources)
      (fp : List Nat),
      findCatalog b.id = some b →
      getFootprint size b idx = some fp →
      fp.Nodup →
      (placeBuilding size b idx grid res).success = true →
      hcapOf (placeBuilding size b idx grid res).grid =
        hcapOf grid + fp.length * b.housing := by
  intro size b idx grid res fp hfind hfp hnd hsucc
  by_cases hok : footprintOk grid fp = false
  · have hone : placeBuilding size b idx grid res = ⟨grid, res, false⟩ := by
      simp only [placeBuilding, hfp]
      rw [if_pos hok]
    rw [hone] at hsucc
    exact absurd hsucc (by simp)
  · by_cases haff : canAfford res (scaledCost b 1) = false
    · have hone : placeBuilding size b idx grid res = ⟨grid, res, false⟩ := by
        simp only [placeBuilding, hfp]
        rw [if_neg hok, if_pos haff]
      rw [hone] at hsucc
      exact absurd hsucc (by simp)
    · have hone : placeBuilding size b idx grid res =
          ⟨fp.foldl (fun g ii =>
              modifyTile g ii (fun t => { t with struct := some (placedStruct b) })) grid,
           payRes res (scaledCost b 1), true⟩ := by
        simp only [placeBuilding, hfp]
        rw [if_neg hok, if_neg haff]
      rw [hone]
      have hok' : footprintOk grid fp = true := by
        revert hok; cases footprintOk grid fp <;> simp
      have hcells : ∀ ii ∈ fp, ∃ t, grid.get? ii = some t ∧ t.struct = none := by
        intro ii hii
        obtain ⟨t, hg, -, hs⟩ := (footprintOk_iff grid fp).mp hok' ii hii
        exact ⟨t, hg, hs⟩
      have hres := hcap_fold_place b fp grid hnd hcells
      dsimp only
      rw [hres]
      have hph : cellHousing (placedTile b) = b.housing := by
        simp [cellHousing, cellBuilding, placedTile, placedStruct, hfind]
      rw [hph]

/-- Counterexample to C5 as stated: one placed workshop instance (housing 1,
2×2 footprint) makes the recomputed housing capacity 4, not 1 — each occupied
cell contributes again. -/
theorem housing_cex :
    (placeBuilding 2 workshopB 0 (List.replicate 4 roadTile) (mkRes 30 10 10 0 0)).success =
      true ∧
    workshopB.housing = 1 ∧
    hcapOf (placeBuilding 2 workshopB 0 (List.replicate 4 roadTile)
      (mkRes 30 10 10 0 0)).grid = 4 ∧
    ¬((4 : Nat) = 1) :=
  ⟨by decide, by decide, by decide, by decide⟩

/-- Witness for C5's amended per-cell rule: the 1×1 cottage adds exactly
`1 * housing`. -/
theorem housing_counts_per_cell_witness :
    findCatalog ("cottage") = some cottageB ∧
    getFootprint 2 cottageB 0 = some [0] ∧
    ([0] : List Nat).Nodup ∧
    (placeBuilding 2 cottageB 0 (List.replicate 4 roadTile) (mkRes 20 15 0 0 0)).success =
      true ∧
    hcapOf (placeBuilding 2 cottageB 0 (List.replicate 4 roadTile)
        (mkRes 20 15 0 0 0)).grid =
      hcapOf (List.replicate 4 roadTile) + ([0] : List Nat).length * cottageB.housing :=
  ⟨by decide, by decide, by decide, by decide,
   housing_counts_per_cell 2 cottageB 0 (List.replicate 4 roadTile) (mkRes 20 15 0 0 0)
     [0] (by decide) (by decide) (by decide) (by decide)⟩

/-- C6 (amended).  The periodic recomputation sets the tier to the step
function `tierFromStats(old population, distinct placed catalog ids, all
wonder flags)`; that function is monotone in each argument, so across a
recomputation step the tier cannot drop as long as population does not exceed
housing and the grid and wonder flags are unchanged (two consecutive steps).
Tier is NOT non-decreasing in general: removing buildings (dropping the
distinct-id count) or population decay below a threshold lowers it, as the
counterexample shows. -/
theorem tier_recompute_spec :
    (∀ (p1 p2 u1 u2 : Nat) (w1 w2 : Bool), p1 ≤ p2 → u1 ≤ u2 → (w1 = true → w2 = true) →
      tierFromStats p1 u1 w1 ≤ tierFromStats p2 u2 w2) ∧
    (∀ s : CityState, (computeCityStats s).tier =
      tierFromStats s.population (uniqueIds s.grid).length (wonderAll s.wonder)) ∧
    (∀ s : CityState, s.population ≤ hcapOf s.grid →
      (computeCityStats s).tier ≤ (computeCityStats (computeCityStats s)).tier) := by
  refine ⟨tierFromStats_mono, computeCityStats_tier_eq, ?_⟩
  intro s hpop
  rw [computeCityStats_tier_eq (computeCityStats s), computeCityStats_tier_eq s,
    computeCityStats_grid_eq s, computeCityStats_wonder_eq s]
  exact tierFromStats_mono s.population (computeCityStats s).population
    (uniqueIds s.grid).length (uniqueIds s.grid).length
    (wonderAll s.wonder) (wonderAll s.wonder)
    (computeCityStats_pop_ge s hpop) (Nat.le_refl _) (fun h => h)

/-- Counterexample to C6 as stated: a session state at tier 2 with population
50 whose buildings have all been removed is recomputed to tier 1 — the tier
decreases across the step. -/
theorem tier_decrease_cex :
    (⟨[], 50, 0, 100, 2, ⟨false, false, false⟩⟩ : CityState).tier = 2 ∧
    (computeCityStats ⟨[], 50, 0, 100, 2, ⟨false, false, false⟩⟩).tier = 1 ∧
    ¬((⟨[], 50, 0, 100, 2, ⟨false, false, false⟩⟩ : CityState).tier ≤
        (computeCityStats ⟨[], 50, 0, 100, 2, ⟨false, false, false⟩⟩).tier) :=
  ⟨by decide, by decide, by decide⟩

/-- Witness for C6's amended statement: monotonicity at concrete stats and
the two-step non-decrease from a concrete under-housed state. -/
theorem tier_recompute_spec_witness :
    tierFromStats 0 0 false ≤ tierFromStats 300 5 true ∧
    ((⟨[], 0, 0, 100, 1, ⟨false, false, false⟩⟩ : CityState).population ≤
      hcapOf (⟨[], 0, 0, 100, 1, ⟨false, false, false⟩⟩ : CityState).grid) ∧
    (computeCityStats ⟨[], 0, 0, 100, 1, ⟨false, false, false⟩⟩).tier ≤
      (computeCityStats (computeCityStats ⟨[], 0, 0, 100, 1, ⟨false, false, false⟩⟩)).tier :=
  ⟨tier_recompute_spec.1 0 300 0 5 false true (by decide) (by decide) (fun h => rfl),
   by decide,
   tier_recompute_spec.2.2 ⟨[], 0, 0, 100, 1, ⟨false, false, false⟩⟩ (by decide)⟩

/-- C10.  A successful road or bridge placement followed by removing that
same tile never leaves any of the five resource counters above its original
value: the removal refund (road `{coin:1,lumber:1}`, bridge `{coin:1,stone:1}`)
never exceeds the placement cost (bridge `{coin:2,lumber:1,stone:3}`, road
`{coin:1,lumber:1,stone:1}` plus the nonnegative biome modifier), so a
place-then-remove cycle cannot farm resources. -/
theorem place_remove_no_farm :
    ∀ (bridgeMode bm2 : Bool) (idx : Nat) (grid : List Tile) (res : Resources),
      (placeRoadOrBridge bridgeMode false idx grid res).placed = true →
      ((placeRoadOrBridge bm2 true idx
          (placeRoadOrBridge bridgeMode false idx grid res).grid
          (placeRoadOrBridge bridgeMode false idx grid res).res).res.coin ≤ res.coin ∧
       (placeRoadOrBridge bm2 true idx
          (placeRoadOrBridge bridgeMode false idx grid res).grid
          (placeRoadOrBridge bridgeMode false idx grid res).res).res.lumber ≤ res.lumber ∧
       (placeRoadOrBridge bm2 true idx
          (placeRoadOrBridge bridgeMode false idx grid res).grid
          (placeRoadOrBridge bridgeMode false idx grid res).res).res.stone ≤ res.stone ∧
       (placeRoadOrBridge bm2 true idx
          (placeRoadOrBridge bridgeMode false idx grid res).grid
          (placeRoadOrBridge bridgeMode false idx grid res).res).res.knowledge ≤ res.knowledge ∧
       (placeRoadOrBridge bm2 true idx
          (placeRoadOrBridge bridgeMode false idx grid res).grid
          (placeRoadOrBridge bridgeMode false idx grid res).res).res.magic ≤ res.magic) := by
  intro bm bm2 idx grid res h
  cases hg : grid.get? idx with
  | none =>
    simp only [placeRoadOrBridge, hg] at h
    exact absurd h (by simp)
  | some t =>
    simp only [placeRoadOrBridge, hg, Bool.false_eq_true, if_false] at h
    by_cases hw : t.terrain = Terrain.water
    · rw [if_pos hw] at h
      by_cases hb : bm = false
      · rw [if_pos hb] at h
        simp at h
      · rw [if_neg hb] at h
        by_cases ha : canAfford res BRIDGE_COST = false
        · rw [if_pos ha] at h
          simp at h
        · rw [if_neg ha] at h
          have hres : placeRoadOrBridge bm false idx grid res =
              ⟨grid.set idx { t with terrain := Terrain.bridge }, payRes res BRIDGE_COST, true⟩ := by
            simp only [placeRoadOrBridge, hg, Bool.false_eq_true, if_false]
            rw [if_pos hw, if_neg hb, if_neg ha]
          rw [hres]
          have hg1 : (grid.set idx { t with terrain := Terrain.bridge }).get? idx =
              some { t with terrain := Terrain.bridge } := by
            rw [List.get?_set_eq, hg]; rfl
          rw [placeRoadOrBridge, hg1]
          simp [addRes, payRes, mkRes, BRIDGE_COST]
          omega
    · rw [if_neg hw] at h
      by_cases hgr : t.terrain = Terrain.grass
      · rw [if_pos hgr] at h
        by_cases hth : t.biome = Biome.thicket
        · rw [if_pos hth] at h
          simp at h
        · rw [if_neg hth] at h
          by_cases ha : canAfford res (addRes ROAD_BASE_COST (biomeRoadMod t.biome)) = false
          · rw [if_pos ha] at h
            simp at h
          · rw [if_neg ha] at h
            have hres : placeRoadOrBridge bm false idx grid res =
                ⟨grid.set idx { t with terrain := Terrain.road },
                 payRes res (addRes ROAD_BASE_COST (biomeRoadMod t.biome)), true⟩ := by
              simp only [placeRoadOrBridge, hg, Bool.false_eq_true, if_false]
              rw [if_neg hw, if_pos hgr, if_neg hth, if_neg ha]
            rw [hres]
            have hg1 : (grid.set idx { t with terrain := Terrain.road }).get? idx =
                some { t with terrain := Terrain.road } := by
              rw [List.get?_set_eq, hg]; rfl
            rw [placeRoadOrBridge, hg1]
            cases hbio : t.biome <;>
              first
                | exact absurd hbio hth
                | (simp [hbio, addRes, payRes, mkRes, ROAD_BASE_COST, biomeRoadMod,
                     Resources.zero] <;>
                   omega)
      · rw [if_neg hgr] at h
        simp at h

/-- Witness for C10: place a road on a meadow grass tile and remove it; every
counter ends at or below its starting value. -/
theorem place_remove_no_farm_witness :
    (placeRoadOrBridge false false 0 [grassTile] (mkRes 5 5 5 5 5)).placed = true ∧
    ((placeRoadOrBridge true true 0
        (placeRoadOrBridge false false 0 [grassTile] (mkRes 5 5 5 5 5)).grid
        (placeRoadOrBridge false false 0 [grassTile] (mkRes 5 5 5 5 5)).res).res.coin ≤
        (mkRes 5 5 5 5 5).coin ∧
     (placeRoadOrBridge true true 0
        (placeRoadOrBridge false false 0 [grassTile] (mkRes 5 5 5 5 5)).grid
        (placeRoadOrBridge false false 0 [grassTile] (mkRes 5 5 5 5 5)).res).res.lumber ≤
        (mkRes 5 5 5 5 5).lumber ∧
     (placeRoadOrBridge true true 0
        (placeRoadOrBridge false false 0 [grassTile] (mkRes 5 5 5 5 5)).grid
        (placeRoadOrBridge false false 0 [grassTile] (mkRes 5 5 5 5 5)).res).res.stone ≤
        (mkRes 5 5 5 5 5).stone ∧
     (placeRoadOrBridge true true 0
        (placeRoadOrBridge false false 0 [grassTile] (mkRes 5 5 5 5 5)).grid
        (placeRoadOrBridge false false 0 [grassTile] (mkRes 5 5 5 5 5)).res).res.knowledge ≤
        (mkRes 5 5 5 5 5).knowledge ∧
     (placeRoadOrBridge true true 0
        (placeRoadOrBridge false false 0 [grassTile] (mkRes 5 5 5 5 5)).grid
        (placeRoadOrBridge false false 0 [grassTile] (mkRes 5 5 5 5 5)).res).res.magic ≤
        (mkRes 5 5 5 5 5).magic) :=
  ⟨by decide, place_remove_no_farm false true 0 [grassTile] (mkRes 5 5 5 5 5) (by decide)⟩

/-- C9.  With rack `[S,T,O,N,E,A,B,C]`, any dictionary containing "STONE",
tier 1 and any happiness, submitting "STONE" in the part_000 `submitWord` is
accepted, the pre-multiplier gain is coin 2, lumber 1, stone 0, knowledge 1,
magic 0, and the rack afterwards is the three leftover letters `A,B,C`
followed by five freshly drawn letters. -/
theorem stone_example :
    ∀ (happiness : Int) (dict : String → Bool) (letters : Nat → Char) (res : Resources),
      dict ("STONE") = true →
      (submitWordV0 1 happiness dict letters ['S', 'T', 'O', 'N', 'E', 'A', 'B', 'C'] res
          ("STONE")).accepted = true ∧
      baseGainBasic (normalizeWord ("STONE")) = ⟨2, 1, 0, 1, 0⟩ ∧
      (submitWordV0 1 happiness dict letters ['S', 'T', 'O', 'N', 'E', 'A', 'B', 'C'] res
          ("STONE")).rack = ['A', 'B', 'C'] ++ (List.range 5).map letters := by
  intro happiness dict letters res h
  have hw : normalizeWord ("STONE") = ['S', 'T', 'O', 'N', 'E'] := by decide
  have hform : canFormFromRack ['S', 'T', 'O', 'N', 'E']
      ['S', 'T', 'O', 'N', 'E', 'A', 'B', 'C'] = true := by decide
  have hk : consumeRack ['S', 'T', 'O', 'N', 'E']
      ['S', 'T', 'O', 'N', 'E', 'A', 'B', 'C'] = ['A', 'B', 'C'] := by decide
  refine ⟨?_, by decide, ?_⟩ <;>
    simp [submitWordV0, hw, hform, hk, h, String.mk]

/-- Witness for C9 with an explicit dictionary, happiness and letter
stream. -/
theorem stone_example_witness :
    (fun w => w == "STONE") ("STONE") = true ∧
    (submitWordV0 1 80 (fun w => w == "STONE") (fun _ => 'Q')
        ['S', 'T', 'O', 'N', 'E', 'A', 'B', 'C'] Resources.zero ("STONE")).accepted = true ∧
    baseGainBasic (normalizeWord ("STONE")) = ⟨2, 1, 0, 1, 0⟩ ∧
    (submitWordV0 1 80 (fun w => w == "STONE") (fun _ => 'Q')
        ['S', 'T', 'O', 'N', 'E', 'A', 'B', 'C'] Resources.zero ("STONE")).rack =
      ['A', 'B', 'C'] ++ (List.range 5).map (fun _ => 'Q') :=
  ⟨by decide,
   (stone_example 80 (fun w => w == "STONE") (fun _ => 'Q') Resources.zero (by decide)).1,
   (stone_example 80 (fun w => w == "STONE") (fun _ => 'Q') Resources.zero (by decide)).2.1,
   (stone_example 80 (fun w => w == "STONE") (fun _ => 'Q') Resources.zero (by decide)).2.2⟩

end WordCity
